import Mathlib

/-!
Verification of the front-end controller `src/static/app.js` of the
resume-tailoring web app.  The script is a single-file UI controller: it
collects form fields into a request payload, validates them, posts the
payload to one of two endpoints, animates a four-step loading overlay on a
timer, and on success either triggers a PDF download or fills a script
modal; on failure it surfaces an error message in a dismissible panel.

The embedding below is a shallow one: DOM state is a record `UIState`,
browser side effects (fetch, object-URL creation, anchor clicks) are an
explicit `Effect` list, and each event handler is a pure function from the
form inputs, the network outcome and the previous UI state to the next UI
state plus the effects it performed.  JavaScript string truthiness
(`s || d`) and optional chaining (`form[f]?.value?.trim()`) are modelled
explicitly.
-/

/-- JavaScript `s || d` on strings: the empty string is falsy. -/
def jsOr (s d : String) : String := if s = "" then d else s

/-- Model of `form[f]?.value?.trim() || d`: an absent input (`none`) or an
input whose trimmed value is empty yields the default `d`. -/
def optTrimOr (o : Option String) (d : String) : String :=
  match o with
  | none => d
  | some s => jsOr s.trim d

/-- Model of `x || d` where `x : Option String` stands for a JavaScript
value that may be `undefined`/`null` (`none`) or a string. -/
def optJsOr (o : Option String) (d : String) : String :=
  match o with
  | none => d
  | some s => jsOr s d

/-- The form inputs read by `collectFormData`.  `base_script` is accessed
without optional chaining in the source (`form['base_script'].value`), so
it is a plain `String`; every other field is read through `?.value?.trim()`
and may be absent (`none`). -/
structure FormInputs where
  base_script : String
  jd_api_endpoint : Option String
  jd_api_key : Option String
  job_id : Option String
  jd_raw : Option String
  candidate_name : Option String
  target_role : Option String
  company_name : Option String
deriving DecidableEq, Repr

/-- The request payload object built by `collectFormData`. -/
structure Payload where
  base_script : String
  jd_api_endpoint : String
  jd_api_key : String
  job_id : String
  jd_raw : String
  candidate_name : String
  target_role : String
  company_name : String
deriving DecidableEq, Repr

/-- Embedding of `collectFormData` (src/static/app.js, lines 107-119).
`activeTab` is `document.querySelector('.tab.active')?.dataset.tab`:
`none` when no tab carries the `active` class. -/
def collectFormData (activeTab : Option String) (form : FormInputs) : Payload :=
  { base_script := form.base_script.trim
  , jd_api_endpoint :=
      if activeTab = some "api" then optTrimOr form.jd_api_endpoint "" else ""
  , jd_api_key :=
      if activeTab = some "api" then optTrimOr form.jd_api_key "" else ""
  , job_id :=
      if activeTab = some "api" then optTrimOr form.job_id "" else ""
  , jd_raw :=
      if activeTab = some "paste" then optTrimOr form.jd_raw "" else ""
  , candidate_name := optTrimOr form.candidate_name "BHARATH KUMAR RAJESH"
  , target_role := optTrimOr form.target_role ""
  , company_name := optTrimOr form.company_name "" }

/-- Embedding of `validate` (src/static/app.js, lines 122-131).  The
source re-reads the active tab from the DOM; `!data.jd_raw` and
`!data.job_id` are string truthiness tests, i.e. emptiness tests. -/
def validate (activeTab : Option String) (data : Payload) : Option String :=
  if activeTab = some "paste" ∧ data.jd_raw = "" then
    some "Please paste a job description."
  else if activeTab = some "api" ∧ data.job_id = "" then
    some "Please enter a Job ID or Job URL."
  else none

/-- Mark carried by a loading step element: none, `active`, or `done`. -/
inductive StepMark where
  | unmarked
  | active
  | done
deriving DecidableEq, Repr

/-- The DOM state the controller reads and writes: loading overlay and the
four step elements, the interval timer, the two action buttons, the
results/error panels and the script modal. -/
structure UIState where
  loadingHidden : Bool
  step1 : StepMark
  step2 : StepMark
  step3 : StepMark
  step4 : StepMark
  stepIdx : Nat
  stepTimer : Bool
  generateDisabled : Bool
  scriptDisabled : Bool
  btnLabel : String
  resultsHidden : Bool
  changesSummary : String
  pageBadge : String
  errorHidden : Bool
  errorBody : String
  scriptModalHidden : Bool
  scriptOutput : String
  changesModal : String
deriving DecidableEq, Repr

/-- The step element with index `i` (`STEPS = ['step-1', …, 'step-4']`). -/
def getStep (ui : UIState) : Nat → StepMark
  | 0 => ui.step1
  | 1 => ui.step2
  | 2 => ui.step3
  | _ => ui.step4

/-- Write the class mark of step element `i`. -/
def setStep (ui : UIState) : Nat → StepMark → UIState
  | 0, m => { ui with step1 := m }
  | 1, m => { ui with step2 := m }
  | 2, m => { ui with step3 := m }
  | _, m => { ui with step4 := m }

/-- The fixed interval, in milliseconds, passed to `setInterval` in
`showLoading`. -/
def STEP_INTERVAL_MS : Nat := 4000

/-- Embedding of `showLoading` (src/static/app.js, lines 83-98): unhide the
overlay, clear every step mark, mark step 1 active, reset the step index
and start the interval timer. -/
def showLoading (ui : UIState) : UIState :=
  { ui with loadingHidden := false
          , step1 := .active, step2 := .unmarked
          , step3 := .unmarked, step4 := .unmarked
          , stepIdx := 0, stepTimer := true }

/-- One firing of the `setInterval` callback in `showLoading`: while the
index is below the last step, the current step turns from `active` to
`done` and the next step becomes `active`. -/
def tickStep (ui : UIState) : UIState :=
  if ui.stepIdx < 3 then
    let a := setStep ui ui.stepIdx .done
    let b := setStep a (a.stepIdx + 1) .active
    { b with stepIdx := b.stepIdx + 1 }
  else ui

/-- Embedding of `hideLoading` (src/static/app.js, lines 100-104): clear
the interval timer, hide the overlay and remove every step mark. -/
def hideLoading (ui : UIState) : UIState :=
  { ui with stepTimer := false
          , loadingHidden := true
          , step1 := .unmarked, step2 := .unmarked
          , step3 := .unmarked, step4 := .unmarked }

/-- The loading animation state after `showLoading` and `k` timer
firings. -/
def loadingAfter (k : Nat) (ui : UIState) : UIState :=
  tickStep^[k] (showLoading ui)

/-- The page badge text set by `showResults`; `pages` is the result of
`parseInt` and `none` stands for `NaN` (for which `pages !== 1` holds). -/
def pageBadgeText (pages : Option Int) : String :=
  let num := match pages with | none => "NaN" | some n => toString n
  "📄 " ++ num ++ " Page" ++ (if pages = some 1 then "" else "s") ++ " · ATS Ready"

/-- Embedding of `showResults` (src/static/app.js, lines 134-139): unhide
the results panel, fill the summary (falling back to a fixed sentence when
the summary string is empty) and the page badge. -/
def showResults (summary : String) (pages : Option Int) (ui : UIState) : UIState :=
  { ui with resultsHidden := false
          , changesSummary := jsOr summary "Resume tailored successfully using Claude AI."
          , pageBadge := pageBadgeText pages }

/-- Embedding of `showError` (src/static/app.js, lines 141-145). -/
def showError (msg : String) (ui : UIState) : UIState :=
  { ui with errorHidden := false, errorBody := msg }

/-- Embedding of `hideMessages` (src/static/app.js, lines 147-150). -/
def hideMessages (ui : UIState) : UIState :=
  { ui with resultsHidden := true, errorHidden := true }

/-- The `errorClose` click listener: it adds `hidden` to the error panel,
making the panel dismissible. -/
def errorCloseClick (ui : UIState) : UIState :=
  { ui with errorHidden := true }

/-- Value of a hexadecimal digit character, if it is one. -/
def hexVal (c : Char) : Option Nat :=
  let n := c.toNat
  if 48 ≤ n ∧ n ≤ 57 then some (n - 48)
  else if 65 ≤ n ∧ n ≤ 70 then some (n - 55)
  else if 97 ≤ n ∧ n ≤ 102 then some (n - 87)
  else none

/-- Percent-decoding on a character list: a `%` followed by two hex digits
becomes the character with that code. -/
def pctDecode : List Char → List Char
  | [] => []
  | '%' :: a :: b :: rest =>
    match hexVal a, hexVal b with
    | some ha, some hb => Char.ofNat (16 * ha + hb) :: pctDecode rest
    | _, _ => '%' :: pctDecode (a :: b :: rest)
  | c :: rest => c :: pctDecode rest

/-- Model of the browser builtin `decodeURIComponent`, restricted to
single-byte escapes; a malformed escape is kept verbatim (the builtin
throws `URIError` there, a case no claim exercises; on the inputs the
claims use the two agree). -/
def decodeURIComponent (s : String) : String := String.mk (pctDecode s.data)

/-- Model of the builtin `parseInt(s, 10)`: skip leading whitespace, read
an optional sign and the longest digit prefix; `none` stands for `NaN`. -/
def parseInt10 (s : String) : Option Int :=
  let cs := s.data.dropWhile Char.isWhitespace
  let digits := fun (l : List Char) =>
    (l.takeWhile Char.isDigit).foldl (fun (acc : Nat) c => 10 * acc + (c.toNat - 48)) 0
  let hasDigit := fun (l : List Char) => l.takeWhile Char.isDigit ≠ []
  match cs with
  | '-' :: rest => if hasDigit rest then some (-(digits rest : Int)) else none
  | '+' :: rest => if hasDigit rest then some (digits rest : Int) else none
  | l => if hasDigit l then some (digits l : Int) else none

/-- Model of `resp.headers.get(h) || d`: an absent header (`null`) or an
empty header value falls back to `d`. -/
def headerOr (h : Option String) (d : String) : String :=
  match h with
  | none => d
  | some s => jsOr s d

/-- Lines 174-177 of src/static/app.js: the error detail extracted from a
non-ok response.  `body` is `none` when `resp.json()` threw, and otherwise
carries the optional `detail` field of the parsed JSON; `j.detail || detail`
keeps the default `Server error <status>` when the field is absent, falsy
(empty), or the body did not parse. -/
def errorDetail (status : Nat) (body : Option (Option String)) : String :=
  let d0 := "Server error " ++ toString status
  match body with
  | some (some s) => jsOr s d0
  | _ => d0

/-- `catch (err) { showError(err.message || fallback) }`: the message of
the caught value (`none` when it has no message) or the fallback. -/
def thrownMessage (msg : Option String) (fallback : String) : String :=
  optJsOr msg fallback

/-- Browser side effects the handlers perform, in order. -/
inductive Effect where
  | fetchPost (endpoint : String) (contentType : String) (body : Payload)
  | createObjectURL
  | appendAnchor (filename : String)
  | clickAnchor
  | removeAnchor
  | revokeObjectURL
deriving DecidableEq, Repr

/-- Recognises the network-request effect. -/
def isFetchEffect : Effect → Bool
  | .fetchPost _ _ _ => true
  | _ => false

/-- Outcome of the awaited `fetch('/tailor', …)` and its response reads:
the fetch rejected (network error, with the error's optional message), or
a non-ok response (status plus the parsed body's optional `detail`), or an
ok response with the raw `X-Pages` and `X-Changes-Summary` header values
(`none` when the header is absent). -/
inductive TailorOutcome where
  | thrown (msg : Option String)
  | notOk (status : Nat) (body : Option (Option String))
  | ok (xPages : Option String) (xChangesSummary : Option String)
deriving DecidableEq, Repr

/-- Outcome of the awaited `fetch('/script', …)`: as for the tailor
request, except an ok response carries the optional `script` and
`changes_summary` fields of the response JSON. -/
inductive ScriptOutcome where
  | thrown (msg : Option String)
  | notOk (status : Nat) (body : Option (Option String))
  | ok (script : Option String) (changes : Option String)
deriving DecidableEq, Repr

/-- Fallback message of the submit handler's catch clause. -/
def GENERATE_FALLBACK : String := "An unexpected error occurred. Check the server logs."

/-- Fallback message of the script handler's catch clause. -/
def SCRIPT_FALLBACK : String := "Script generation failed. Check the server logs."

/-- Embedding of the form submit handler (src/static/app.js, lines
153-203).  Validation failure shows the error and returns before any
request.  Otherwise the handler hides messages, shows the loading overlay,
disables both buttons, relabels the generate button, performs the POST to
`/tailor` and, per outcome: a failure reaches the catch clause and shows
the error message; an ok response reads the `X-Pages` and
`X-Changes-Summary` headers, downloads the blob through a temporary
object URL and an auto-clicked anchor, and shows the results.  The finally
clause always hides the loading overlay, re-enables both buttons and
restores the label. -/
def submitHandler (activeTab : Option String) (form : FormInputs)
    (outcome : TailorOutcome) (ui : UIState) : UIState × List Effect :=
  let data := collectFormData activeTab form
  match validate activeTab data with
  | some err => (showError err (hideMessages ui), [])
  | none =>
    let st0 := showLoading (hideMessages ui)
    let st1 := { st0 with generateDisabled := true, scriptDisabled := true
                        , btnLabel := "Tailoring…" }
    let fe := Effect.fetchPost "/tailor" "application/json" data
    let (st2, effs) :=
      match outcome with
      | .thrown msg =>
          (showError (thrownMessage msg GENERATE_FALLBACK) st1, [fe])
      | .notOk status body =>
          (showError (jsOr (errorDetail status body) GENERATE_FALLBACK) st1, [fe])
      | .ok xp xc =>
          let pages := parseInt10 (headerOr xp "1")
          let changes := decodeURIComponent (headerOr xc "")
          (showResults changes pages st1,
            [fe, .createObjectURL, .appendAnchor "Bharath_Kumar_Tailored_Resume.pdf",
             .clickAnchor, .removeAnchor, .revokeObjectURL])
    let st3 := { hideLoading st2 with generateDisabled := false
                                    , scriptDisabled := false
                                    , btnLabel := "Generate Tailored PDF" }
    (st3, effs)

/-- Embedding of the script button click handler (src/static/app.js, lines
206-241): identical flow except the POST goes to `/script`, an ok response
fills the script modal from the JSON fields (`json.script || ''` and
`json.changes_summary || ''`), and the button label is untouched. -/
def scriptHandler (activeTab : Option String) (form : FormInputs)
    (outcome : ScriptOutcome) (ui : UIState) : UIState × List Effect :=
  let data := collectFormData activeTab form
  match validate activeTab data with
  | some err => (showError err (hideMessages ui), [])
  | none =>
    let st0 := showLoading (hideMessages ui)
    let st1 := { st0 with generateDisabled := true, scriptDisabled := true }
    let fe := Effect.fetchPost "/script" "application/json" data
    let (st2, effs) :=
      match outcome with
      | .thrown msg =>
          (showError (thrownMessage msg SCRIPT_FALLBACK) st1, [fe])
      | .notOk status body =>
          (showError (jsOr (errorDetail status body) SCRIPT_FALLBACK) st1, [fe])
      | .ok script changes =>
          ({ st1 with scriptOutput := optJsOr script ""
                    , changesModal := optJsOr changes ""
                    , scriptModalHidden := false }, [fe])
    let st3 := { hideLoading st2 with generateDisabled := false
                                    , scriptDisabled := false }
    (st3, effs)

/-- Whether a tailor-request outcome is a failure in the sense of the
spec: a non-ok HTTP status or a thrown fetch error. -/
def requestFailedT : TailorOutcome → Bool
  | .ok _ _ => false
  | _ => true

/-- Whether a script-request outcome is a failure. -/
def requestFailedS : ScriptOutcome → Bool
  | .ok _ _ => false
  | _ => true

/-- A concrete initial UI state matching the page at load: overlay and
panels hidden, buttons enabled, no step marks. -/
def initUI : UIState :=
  { loadingHidden := true
  , step1 := .unmarked, step2 := .unmarked, step3 := .unmarked, step4 := .unmarked
  , stepIdx := 0, stepTimer := false
  , generateDisabled := false, scriptDisabled := false
  , btnLabel := "Generate Tailored PDF"
  , resultsHidden := true, changesSummary := "", pageBadge := ""
  , errorHidden := true, errorBody := ""
  , scriptModalHidden := true, scriptOutput := "", changesModal := "" }

/-- A form with every optional input absent, used to instantiate the
theorems below at a concrete point. -/
def emptyForm : FormInputs :=
  { base_script := ""
  , jd_api_endpoint := none, jd_api_key := none, job_id := none
  , jd_raw := none, candidate_name := none
  , target_role := none, company_name := none }

/-- The JavaScript default `s || d` is non-empty whenever `d` is. -/
theorem jsOr_ne_empty (s d : String) (hd : d ≠ "") : jsOr s d ≠ "" := by
  unfold jsOr
  split <;> simp_all

/-- The optional default `o || d` is non-empty whenever `d` is. -/
theorem optJsOr_ne_empty (o : Option String) (d : String) (hd : d ≠ "") :
    optJsOr o d ≠ "" := by
  cases o with
  | none => simpa [optJsOr]
  | some s => exact jsOr_ne_empty s d hd

/-- The default error detail `Server error <status>` is never empty. -/
theorem serverError_ne_empty (status : Nat) :
    "Server error " ++ toString status ≠ "" := by
  intro h
  have hl := congrArg String.length h
  simp [String.length_append] at hl
  exact absurd hl.1 (by decide)

/-- The error detail of a non-ok response is never the empty string. -/
theorem errorDetail_ne_empty (status : Nat) (body : Option (Option String)) :
    errorDetail status body ≠ "" := by
  unfold errorDetail
  cases body with
  | none => exact serverError_ne_empty status
  | some b =>
    cases b with
    | none => exact serverError_ne_empty status
    | some s => exact jsOr_ne_empty s _ (serverError_ne_empty status)

/-- An input empty or absent after trimming turns any default into that
default. -/
theorem optTrimOr_default_of_empty (o : Option String) (d : String)
    (h : optTrimOr o "" = "") : optTrimOr o d = d := by
  cases o with
  | none => rfl
  | some s =>
    simp only [optTrimOr, jsOr] at h ⊢
    split at h
    · simp_all
    · exact absurd h (by assumption)

/-- C1: with an active tab, validate rejects exactly an empty trimmed
job-description on the paste tab and an empty trimmed job identifier on the
API tab, with the two user-facing error strings, and accepts otherwise. -/
theorem C1_validate_on_form_payload (t : String) (form : FormInputs) :
    validate (some t) (collectFormData (some t) form) =
      if t = "paste" ∧ optTrimOr form.jd_raw "" = "" then
        some "Please paste a job description."
      else if t = "api" ∧ optTrimOr form.job_id "" = "" then
        some "Please enter a Job ID or Job URL."
      else none := by
  by_cases hp : t = "paste" <;> by_cases ha : t = "api" <;>
    simp_all [validate, collectFormData]

/-- C5: the fields of the inactive tab are forced to empty strings by
`collectFormData`, whatever the form inputs hold. -/
theorem C5_inactive_tab_fields_empty (form : FormInputs) :
    (collectFormData (some "paste") form).jd_api_endpoint = "" ∧
    (collectFormData (some "paste") form).jd_api_key = "" ∧
    (collectFormData (some "paste") form).job_id = "" ∧
    (collectFormData (some "api") form).jd_raw = "" := by
  refine ⟨?_, ?_, ?_, ?_⟩ <;> simp [collectFormData]

/-- C10: with no tab carrying the `active` class, validate accepts every
payload — in particular the all-empty one — and the submit handler always
reaches the network request: its effect list contains the POST to
`/tailor`. -/
theorem C10_no_active_tab_accepts (data : Payload) (form : FormInputs)
    (o : TailorOutcome) (ui : UIState) :
    validate none data = none ∧
      Effect.fetchPost "/tailor" "application/json" (collectFormData none form) ∈
        (submitHandler none form o ui).2 := by
  constructor
  · simp [validate]
  · cases o <;> simp [submitHandler, validate]

/-- C2: every failed request — non-ok status or a thrown fetch error — in
either handler re-enables both action buttons, hides the loading overlay,
and shows a non-empty message in the error panel. -/
theorem C2_failed_request_reenables (tab : Option String) (form : FormInputs)
    (ui : UIState) (oT : TailorOutcome) (oS : ScriptOutcome)
    (hv : validate tab (collectFormData tab form) = none) :
    (requestFailedT oT = true →
      (submitHandler tab form oT ui).1.generateDisabled = false ∧
      (submitHandler tab form oT ui).1.scriptDisabled = false ∧
      (submitHandler tab form oT ui).1.loadingHidden = true ∧
      (submitHandler tab form oT ui).1.errorHidden = false ∧
      (submitHandler tab form oT ui).1.errorBody ≠ "") ∧
    (requestFailedS oS = true →
      (scriptHandler tab form oS ui).1.generateDisabled = false ∧
      (scriptHandler tab form oS ui).1.scriptDisabled = false ∧
      (scriptHandler tab form oS ui).1.loadingHidden = true ∧
      (scriptHandler tab form oS ui).1.errorHidden = false ∧
      (scriptHandler tab form oS ui).1.errorBody ≠ "") := by
  have hgen : GENERATE_FALLBACK ≠ "" := by decide
  have hscr : SCRIPT_FALLBACK ≠ "" := by decide
  constructor
  · intro hf
    cases oT with
    | ok xp xc => simp [requestFailedT] at hf
    | thrown msg =>
      refine ⟨?_, ?_, ?_, ?_, ?_⟩ <;>
        simp [submitHandler, hv, showError, hideLoading, showLoading,
              hideMessages, thrownMessage]
      exact optJsOr_ne_empty msg _ hgen
    | notOk status body =>
      refine ⟨?_, ?_, ?_, ?_, ?_⟩ <;>
        simp [submitHandler, hv, showError, hideLoading, showLoading,
              hideMessages]
      exact jsOr_ne_empty _ _ hgen
  · intro hf
    cases oS with
    | ok s c => simp [requestFailedS] at hf
    | thrown msg =>
      refine ⟨?_, ?_, ?_, ?_, ?_⟩ <;>
        simp [scriptHandler, hv, showError, hideLoading, showLoading,
              hideMessages, thrownMessage]
      exact optJsOr_ne_empty msg _ hscr
    | notOk status body =>
      refine ⟨?_, ?_, ?_, ?_, ?_⟩ <;>
        simp [scriptHandler, hv, showError, hideLoading, showLoading,
              hideMessages]
      exact jsOr_ne_empty _ _ hscr

/-- Witness for C2 at a concrete point: no active tab, a network error on
both handlers, starting from the initial UI state. -/
theorem C2_failed_request_reenables_witness :
    ((submitHandler none emptyForm (TailorOutcome.thrown none) initUI).1.generateDisabled = false ∧
     (submitHandler none emptyForm (TailorOutcome.thrown none) initUI).1.scriptDisabled = false ∧
     (submitHandler none emptyForm (TailorOutcome.thrown none) initUI).1.loadingHidden = true ∧
     (submitHandler none emptyForm (TailorOutcome.thrown none) initUI).1.errorHidden = false ∧
     (submitHandler none emptyForm (TailorOutcome.thrown none) initUI).1.errorBody ≠ "") ∧
    ((scriptHandler none emptyForm (ScriptOutcome.thrown none) initUI).1.generateDisabled = false ∧
     (scriptHandler none emptyForm (ScriptOutcome.thrown none) initUI).1.scriptDisabled = false ∧
     (scriptHandler none emptyForm (ScriptOutcome.thrown none) initUI).1.loadingHidden = true ∧
     (scriptHandler none emptyForm (ScriptOutcome.thrown none) initUI).1.errorHidden = false ∧
     (scriptHandler none emptyForm (ScriptOutcome.thrown none) initUI).1.errorBody ≠ "") := by
  have h := C2_failed_request_reenables none emptyForm initUI
    (TailorOutcome.thrown none) (ScriptOutcome.thrown none) (by decide)
  exact ⟨h.1 rfl, h.2 rfl⟩

/-- C3: a successful generate response performs exactly the download
effect sequence — one object URL created, one anchor appended, clicked
once, removed, then the URL revoked — after the single POST, and the final
state has the timer cleared, the overlay hidden and every step mark
removed. -/
theorem C3_success_single_download (tab : Option String) (form : FormInputs)
    (ui : UIState) (xp xc : Option String)
    (hv : validate tab (collectFormData tab form) = none) :
    (submitHandler tab form (TailorOutcome.ok xp xc) ui).2 =
      [Effect.fetchPost "/tailor" "application/json" (collectFormData tab form),
       Effect.createObjectURL,
       Effect.appendAnchor "Bharath_Kumar_Tailored_Resume.pdf",
       Effect.clickAnchor, Effect.removeAnchor, Effect.revokeObjectURL] ∧
    (submitHandler tab form (TailorOutcome.ok xp xc) ui).1.stepTimer = false ∧
    (submitHandler tab form (TailorOutcome.ok xp xc) ui).1.loadingHidden = true ∧
    (∀ j, j < 4 →
      getStep (submitHandler tab form (TailorOutcome.ok xp xc) ui).1 j
        = StepMark.unmarked) := by
  refine ⟨?_, ?_, ?_, fun j hj => ?_⟩
  · simp [submitHandler, hv]
  · simp [submitHandler, hv, hideLoading, showLoading, hideMessages, showResults]
  · simp [submitHandler, hv, hideLoading, showLoading, hideMessages, showResults]
  · interval_cases j <;>
      simp [submitHandler, hv, hideLoading, showLoading, hideMessages,
            showResults, getStep]

/-- Witness for C3: no active tab, both headers absent, initial state. -/
theorem C3_success_single_download_witness :
    (submitHandler none emptyForm (TailorOutcome.ok none none) initUI).2 =
      [Effect.fetchPost "/tailor" "application/json" (collectFormData none emptyForm),
       Effect.createObjectURL,
       Effect.appendAnchor "Bharath_Kumar_Tailored_Resume.pdf",
       Effect.clickAnchor, Effect.removeAnchor, Effect.revokeObjectURL] ∧
    (submitHandler none emptyForm (TailorOutcome.ok none none) initUI).1.stepTimer = false ∧
    getStep (submitHandler none emptyForm (TailorOutcome.ok none none) initUI).1 0
      = StepMark.unmarked := by
  have h := C3_success_single_download none emptyForm initUI none none (by decide)
  exact ⟨h.1, h.2.1, h.2.2.2 0 (by decide)⟩

/-- C4: in every payload, an optional field whose input is empty or absent
after trimming is the empty string, and `candidate_name` falls back to the
fixed literal. -/
theorem C4_optional_field_defaults (tab : Option String) (form : FormInputs) :
    (optTrimOr form.target_role "" = "" →
      (collectFormData tab form).target_role = "") ∧
    (optTrimOr form.company_name "" = "" →
      (collectFormData tab form).company_name = "") ∧
    (tab = some "api" → optTrimOr form.jd_api_endpoint "" = "" →
      (collectFormData tab form).jd_api_endpoint = "") ∧
    (tab = some "api" → optTrimOr form.jd_api_key "" = "" →
      (collectFormData tab form).jd_api_key = "") ∧
    (tab = some "api" → optTrimOr form.job_id "" = "" →
      (collectFormData tab form).job_id = "") ∧
    (tab = some "paste" → optTrimOr form.jd_raw "" = "" →
      (collectFormData tab form).jd_raw = "") ∧
    (optTrimOr form.candidate_name "" = "" →
      (collectFormData tab form).candidate_name = "BHARATH KUMAR RAJESH") := by
  refine ⟨fun h => ?_, fun h => ?_, fun ht h => ?_, fun ht h => ?_,
          fun ht h => ?_, fun ht h => ?_,
          fun h => by
            simpa [collectFormData] using
              optTrimOr_default_of_empty form.candidate_name _ h⟩ <;>
    simp_all [collectFormData]

/-- Witness for C4 at two concrete tabs with every input absent. -/
theorem C4_optional_field_defaults_witness :
    (collectFormData (some "api") emptyForm).jd_api_endpoint = "" ∧
    (collectFormData (some "api") emptyForm).jd_api_key = "" ∧
    (collectFormData (some "api") emptyForm).job_id = "" ∧
    (collectFormData (some "paste") emptyForm).jd_raw = "" ∧
    (collectFormData (some "paste") emptyForm).target_role = "" ∧
    (collectFormData (some "paste") emptyForm).company_name = "" ∧
    (collectFormData (some "paste") emptyForm).candidate_name
      = "BHARATH KUMAR RAJESH" := by
  have ha := C4_optional_field_defaults (some "api") emptyForm
  have hp := C4_optional_field_defaults (some "paste") emptyForm
  exact ⟨ha.2.2.1 rfl rfl, ha.2.2.2.1 rfl rfl, ha.2.2.2.2.1 rfl rfl,
         hp.2.2.2.2.2.1 rfl rfl, hp.1 rfl, hp.2.1 rfl,
         hp.2.2.2.2.2.2 rfl⟩

/-- Counterexample to C6 as stated: the server responds 500 with the JSON
body `{"detail": ""}` — the detail field is present — yet the displayed
message is the fallback `Server error 500`, not the provided detail
verbatim. -/
theorem C6_counterexample_empty_detail :
    (submitHandler none emptyForm
        (TailorOutcome.notOk 500 (some (some ""))) initUI).1.errorBody
      = "Server error 500" ∧
    "Server error 500" ≠ ("" : String) := by
  exact ⟨by decide, by decide⟩

/-- C6 (amended): the displayed message is the server detail exactly when
it is present and non-empty; an absent, unparsable or empty detail falls
back to `Server error <status>`; a thrown fetch error shows the error's
own message when non-empty and the handler's fixed generic message
otherwise; the message appears in the error panel, which the close button
dismisses. -/
theorem C6_error_message_source (tab : Option String) (form : FormInputs)
    (ui : UIState) (status : Nat) (d m : String)
    (hv : validate tab (collectFormData tab form) = none) :
    (d ≠ "" →
      (submitHandler tab form (TailorOutcome.notOk status (some (some d))) ui).1.errorBody
        = d) ∧
    ((submitHandler tab form (TailorOutcome.notOk status none) ui).1.errorBody
        = "Server error " ++ toString status) ∧
    ((submitHandler tab form (TailorOutcome.notOk status (some none)) ui).1.errorBody
        = "Server error " ++ toString status) ∧
    ((submitHandler tab form (TailorOutcome.notOk status (some (some ""))) ui).1.errorBody
        = "Server error " ++ toString status) ∧
    ((submitHandler tab form (TailorOutcome.thrown none) ui).1.errorBody
        = GENERATE_FALLBACK) ∧
    (m ≠ "" →
      (submitHandler tab form (TailorOutcome.thrown (some m)) ui).1.errorBody = m) ∧
    ((submitHandler tab form (TailorOutcome.notOk status (some (some d))) ui).1.errorHidden
        = false) ∧
    ((errorCloseClick
        (submitHandler tab form (TailorOutcome.notOk status (some (some d))) ui).1).errorHidden
        = true) := by
  have hse := serverError_ne_empty status
  refine ⟨fun hd => ?_, ?_, ?_, ?_, ?_, fun hm => ?_, ?_, ?_⟩ <;>
    simp_all [submitHandler, hv, showError, hideLoading, showLoading,
              hideMessages, errorCloseClick, thrownMessage, errorDetail,
              optJsOr, jsOr, GENERATE_FALLBACK]

/-- Witness for C6 (amended) at a concrete point: status 404, detail
`No such job`, thrown message `Failed to fetch`. -/
theorem C6_error_message_source_witness :
    ((submitHandler none emptyForm
        (TailorOutcome.notOk 404 (some (some "No such job"))) initUI).1.errorBody
      = "No such job") ∧
    ((submitHandler none emptyForm
        (TailorOutcome.notOk 404 none) initUI).1.errorBody
      = "Server error " ++ toString 404) ∧
    ((submitHandler none emptyForm
        (TailorOutcome.thrown (some "Failed to fetch")) initUI).1.errorBody
      = "Failed to fetch") ∧
    ((errorCloseClick
        (submitHandler none emptyForm
          (TailorOutcome.notOk 404 (some (some "No such job"))) initUI).1).errorHidden
      = true) := by
  have h := C6_error_message_source none emptyForm initUI 404
    "No such job" "Failed to fetch" (by decide)
  exact ⟨h.1 (by decide), h.2.1, h.2.2.2.2.2.1 (by decide), h.2.2.2.2.2.2.2⟩

/-- Unfolding of one timer firing. -/
theorem loadingAfter_succ (k : Nat) (ui : UIState) :
    loadingAfter (k + 1) ui = tickStep (loadingAfter k ui) := by
  unfold loadingAfter
  exact Function.iterate_succ_apply' tickStep k (showLoading ui)

/-- The animation state before any firing. -/
theorem loadingAfter_zero (ui : UIState) :
    loadingAfter 0 ui = showLoading ui := rfl

/-- The animation state after one firing. -/
theorem loadingAfter_one (ui : UIState) :
    loadingAfter 1 ui =
      { showLoading ui with step1 := .done, step2 := .active, stepIdx := 1 } := by
  show loadingAfter (0 + 1) ui = _
  rw [loadingAfter_succ, loadingAfter_zero]
  simp [tickStep, setStep, showLoading]

/-- The animation state after two firings. -/
theorem loadingAfter_two (ui : UIState) :
    loadingAfter 2 ui =
      { showLoading ui with step1 := .done, step2 := .done
                          , step3 := .active, stepIdx := 2 } := by
  show loadingAfter (1 + 1) ui = _
  rw [loadingAfter_succ, loadingAfter_one]
  simp [tickStep, setStep, showLoading]

/-- The animation state after three firings: the last step is active. -/
theorem loadingAfter_three (ui : UIState) :
    loadingAfter 3 ui =
      { showLoading ui with step1 := .done, step2 := .done
                          , step3 := .done, step4 := .active, stepIdx := 3 } := by
  show loadingAfter (2 + 1) ui = _
  rw [loadingAfter_succ, loadingAfter_two]
  simp [tickStep, setStep, showLoading]

/-- C7: the loading indicator advances exactly one step per firing of the
single fixed-interval timer — before the last step is reached, the active
step becomes done, the next becomes active, and no other step changes —
and `hideLoading` (run by the finally clause of both handlers, on
completion and on error alike) clears the timer and removes every step
mark. -/
theorem C7_loading_animation (ui : UIState) (k : Nat) (tab : Option String)
    (form : FormInputs) (oT : TailorOutcome) (oS : ScriptOutcome)
    (hk : k < 3) (hv : validate tab (collectFormData tab form) = none) :
    STEP_INTERVAL_MS = 4000 ∧
    getStep (loadingAfter k ui) k = StepMark.active ∧
    getStep (loadingAfter (k + 1) ui) k = StepMark.done ∧
    getStep (loadingAfter (k + 1) ui) (k + 1) = StepMark.active ∧
    (∀ j, j < 4 → j ≠ k → j ≠ k + 1 →
      getStep (loadingAfter (k + 1) ui) j = getStep (loadingAfter k ui) j) ∧
    (loadingAfter k ui).stepTimer = true ∧
    (hideLoading (loadingAfter k ui)).stepTimer = false ∧
    (∀ j, j < 4 →
      getStep (hideLoading (loadingAfter k ui)) j = StepMark.unmarked) ∧
    (submitHandler tab form oT ui).1.stepTimer = false ∧
    (∀ j, j < 4 →
      getStep (submitHandler tab form oT ui).1 j = StepMark.unmarked) ∧
    (scriptHandler tab form oS ui).1.stepTimer = false ∧
    (∀ j, j < 4 →
      getStep (scriptHandler tab form oS ui).1 j = StepMark.unmarked) := by
  refine ⟨rfl, ?_, ?_, ?_, ?_, ?_, ?_, ?_, ?_, ?_, ?_, ?_⟩
  · interval_cases k <;>
      simp [loadingAfter_zero, loadingAfter_one, loadingAfter_two,
            showLoading, getStep]
  · interval_cases k <;>
      simp [loadingAfter_one, loadingAfter_two, loadingAfter_three,
            showLoading, getStep]
  · interval_cases k <;>
      simp [loadingAfter_one, loadingAfter_two, loadingAfter_three,
            showLoading, getStep]
  · intro j hj hj1 hj2
    interval_cases k <;> interval_cases j <;>
      simp_all [loadingAfter_zero, loadingAfter_one, loadingAfter_two,
                loadingAfter_three, showLoading, getStep]
  · interval_cases k <;>
      simp [loadingAfter_zero, loadingAfter_one, loadingAfter_two,
            showLoading]
  · interval_cases k <;>
      simp [loadingAfter_zero, loadingAfter_one, loadingAfter_two,
            showLoading, hideLoading]
  · intro j hj
    interval_cases k <;> interval_cases j <;>
      simp [loadingAfter_zero, loadingAfter_one, loadingAfter_two,
            showLoading, hideLoading, getStep]
  · cases oT <;>
      simp [submitHandler, hv, hideLoading, showLoading, hideMessages,
            showError, showResults]
  · intro j hj
    cases oT <;> interval_cases j <;>
      simp [submitHandler, hv, hideLoading, showLoading, hideMessages,
            showError, showResults, getStep]
  · cases oS <;>
      simp [scriptHandler, hv, hideLoading, showLoading, hideMessages,
            showError]
  · intro j hj
    cases oS <;> interval_cases j <;>
      simp [scriptHandler, hv, hideLoading, showLoading, hideMessages,
            showError, getStep]

/-- Witness for C7 at the first firing, no active tab, network errors. -/
theorem C7_loading_animation_witness :
    getStep (loadingAfter 0 initUI) 0 = StepMark.active ∧
    getStep (loadingAfter 1 initUI) 0 = StepMark.done ∧
    getStep (loadingAfter 1 initUI) 1 = StepMark.active ∧
    getStep (loadingAfter 1 initUI) 3 = getStep (loadingAfter 0 initUI) 3 ∧
    (hideLoading (loadingAfter 0 initUI)).stepTimer = false ∧
    (submitHandler none emptyForm (TailorOutcome.thrown none) initUI).1.stepTimer
      = false ∧
    getStep (scriptHandler none emptyForm (ScriptOutcome.thrown none) initUI).1 2
      = StepMark.unmarked := by
  have h := C7_loading_animation initUI 0 none emptyForm
    (TailorOutcome.thrown none) (ScriptOutcome.thrown none) (by decide) (by decide)
  exact ⟨h.2.1, h.2.2.1, h.2.2.2.1,
         h.2.2.2.2.1 3 (by decide) (by decide) (by decide),
         h.2.2.2.2.2.2.1, h.2.2.2.2.2.2.2.2.1,
         h.2.2.2.2.2.2.2.2.2.2.2 2 (by decide)⟩

/-- C8: every accepted submission performs exactly one JSON POST, to
`/tailor` from the generate trigger and to `/script` from the script
trigger, with the same collected payload as body in both cases; the
script handler consumes the JSON response fields `script` and
`changes_summary` into the modal. -/
theorem C8_one_of_two_endpoints (tab : Option String) (form : FormInputs)
    (ui : UIState) (oT : TailorOutcome) (oS : ScriptOutcome)
    (s c : Option String)
    (hv : validate tab (collectFormData tab form) = none) :
    ((submitHandler tab form oT ui).2.filter isFetchEffect =
      [Effect.fetchPost "/tailor" "application/json" (collectFormData tab form)]) ∧
    ((scriptHandler tab form oS ui).2.filter isFetchEffect =
      [Effect.fetchPost "/script" "application/json" (collectFormData tab form)]) ∧
    ((scriptHandler tab form (ScriptOutcome.ok s c) ui).1.scriptOutput
        = optJsOr s "") ∧
    ((scriptHandler tab form (ScriptOutcome.ok s c) ui).1.changesModal
        = optJsOr c "") ∧
    ((scriptHandler tab form (ScriptOutcome.ok s c) ui).1.scriptModalHidden
        = false) := by
  refine ⟨?_, ?_, ?_, ?_, ?_⟩
  · cases oT <;> simp [submitHandler, hv, isFetchEffect]
  · cases oS <;> simp [scriptHandler, hv, isFetchEffect]
  · simp [scriptHandler, hv, hideLoading, showLoading, hideMessages]
  · simp [scriptHandler, hv, hideLoading, showLoading, hideMessages]
  · simp [scriptHandler, hv, hideLoading, showLoading, hideMessages]

/-- Witness for C8: no active tab, ok outcomes, initial state. -/
theorem C8_one_of_two_endpoints_witness :
    ((submitHandler none emptyForm (TailorOutcome.ok none none) initUI).2.filter
        isFetchEffect =
      [Effect.fetchPost "/tailor" "application/json"
        (collectFormData none emptyForm)]) ∧
    ((scriptHandler none emptyForm (ScriptOutcome.ok none none) initUI).2.filter
        isFetchEffect =
      [Effect.fetchPost "/script" "application/json"
        (collectFormData none emptyForm)]) ∧
    ((scriptHandler none emptyForm (ScriptOutcome.ok none none) initUI).1.scriptModalHidden
        = false) := by
  have h := C8_one_of_two_endpoints none emptyForm initUI
    (TailorOutcome.ok none none) (ScriptOutcome.ok none none) none none (by decide)
  exact ⟨h.1, h.2.1, h.2.2.2.2⟩

/-- C9: on a successful generate response with the `X-Pages` header absent
the page badge shows a count of one, and with the `X-Changes-Summary`
header absent the summary falls back to the fixed sentence. -/
theorem C9_header_defaults (tab : Option String) (form : FormInputs)
    (ui : UIState) (xp xc : Option String)
    (hv : validate tab (collectFormData tab form) = none) :
    ((submitHandler tab form (TailorOutcome.ok none xc) ui).1.pageBadge
        = "📄 1 Page · ATS Ready") ∧
    ((submitHandler tab form (TailorOutcome.ok xp none) ui).1.changesSummary
        = "Resume tailored successfully using Claude AI.") := by
  constructor
  · simp [submitHandler, hv, hideLoading, showResults, showLoading, hideMessages]
    decide
  · simp [submitHandler, hv, hideLoading, showResults, showLoading, hideMessages]
    decide

/-- Witness for C9: no active tab, both headers absent. -/
theorem C9_header_defaults_witness :
    ((submitHandler none emptyForm (TailorOutcome.ok none none) initUI).1.pageBadge
        = "📄 1 Page · ATS Ready") ∧
    ((submitHandler none emptyForm (TailorOutcome.ok none none) initUI).1.changesSummary
        = "Resume tailored successfully using Claude AI.") := by
  have h := C9_header_defaults none emptyForm initUI none none (by decide)
  exact ⟨h.1, h.2⟩
